import Mathlib

/-!
Verification development for the simple-express-server-starter backend:
a shallow embedding of the authentication and role/tenant authorization
pipeline (JWT session resolution, role and tenant guards, middleware
composition, the User entity password-hashing lifecycle hooks, and the
auth/user services), followed by theorems settling the specified
properties against this embedding.
-/

namespace SES

/-! ## Password values and the bcrypt collaborator

Modelled from the spec: the bcrypt library itself is an external
collaborator; the Password Hasher contract says `hash` produces a salted,
irreversible digest (distinct salt per call) and `verify(plaintext, hash)`
is true iff the plaintext re-hashes to an equivalent digest.  We model a
password-column value symbolically: either a plaintext string or the
digest of a previously held value under a given salt.  `verify` succeeds
exactly when the digest is the (single) hash of that very plaintext. -/

/-- A value held in the `password` column: either a plaintext string or a
bcrypt digest of a previous value under some salt. -/
inductive PwValue where
  | plain (s : String)
  | hashed (v : PwValue) (salt : Nat)
deriving DecidableEq, Repr

/-- Modelled from the spec: `hashPassword` (src/core/common/bcrypt.ts)
digests its input under a fresh salt, supplied here explicitly. -/
def hashPassword (v : PwValue) (salt : Nat) : PwValue :=
  PwValue.hashed v salt

/-- Modelled from the spec: `verifyPassword` (bcrypt.compare): true iff the
stored value is the digest of exactly this plaintext. A digest of a digest
never matches a plaintext, and a bare plaintext is not a valid digest. -/
def verifyPassword (plainPassword : String) (hashedPassword : PwValue) : Bool :=
  match hashedPassword with
  | PwValue.hashed (PwValue.plain s) _ => s = plainPassword
  | _ => false

/-! ## The User entity (src/entity/user.entity.ts) -/

/-- The persisted `users` row, as loaded into a TypeORM entity.  The
`password` column is `Option` because an entity object may have no
password set (JS `undefined`); server-managed timestamp columns are
omitted. -/
structure User where
  id : String
  email : String
  firstName : String
  lastName : String
  password : Option PwValue
  isActive : Bool
  roles : List String
  refreshToken : Option String
deriving DecidableEq, Repr

/-- JS truthiness of the `password` field: `undefined` and the empty
string are falsy, every other value truthy. -/
def pwTruthy : Option PwValue → Bool
  | none => false
  | some (PwValue.plain s) => decide (s ≠ "")
  | some (PwValue.hashed _ _) => true

/-- `User.hashPassword`, the `@BeforeInsert`/`@BeforeUpdate` hook: if
`this.password` is truthy, replace it by `hashPassword(this.password)`. -/
def hashPasswordHook (u : User) (salt : Nat) : User :=
  if pwTruthy u.password then
    { u with password := u.password.map (fun v => hashPassword v salt) }
  else u

/-- `repository.save` on a new entity: TypeORM runs the `@BeforeInsert`
hook, then persists. -/
def saveNew (u : User) (salt : Nat) : User :=
  hashPasswordHook u salt

/-- `repository.save` on a loaded entity: TypeORM runs the `@BeforeUpdate`
hook (only when the entity differs from its loaded snapshot), then
persists. -/
def saveExisting (snapshot u : User) (salt : Nat) : User :=
  if u = snapshot then u else hashPasswordHook u salt

/-- `User.validatePassword`: delegates to bcrypt verify against the stored
value; with no stored password there is nothing to match. -/
def validatePassword (u : User) (password : String) : Bool :=
  match u.password with
  | some h => verifyPassword password h
  | none => false

/-! ## UserService (src/services/user) -/

/-- The `updateData` argument of `UserService.updateUser`:
`Partial<\x7b email, password \x7d>`.  The password field is whatever
string the caller passes (plaintext from a profile route, or an
already-hashed value as `AuthService.changePassword` does). -/
structure UpdateData where
  email : Option String
  password : Option PwValue
deriving DecidableEq, Repr

/-- `Object.assign(user, updateData)`: fields present in `updateData`
overwrite the entity's fields. -/
def objectAssign (u : User) (d : UpdateData) : User :=
  { u with
    email := d.email.getD u.email
    password := match d.password with
      | some p => some p
      | none => u.password }

/-- `UserService.createUser`: `repository.create(\x7b email, password \x7d)`
followed by `save`; columns not supplied take their defaults
(`isActive` false, `roles` `["user"]`). -/
def createUser (email password : String) (newId : String) (salt : Nat) : User :=
  saveNew
    { id := newId
      email := email
      firstName := ""
      lastName := ""
      password := some (PwValue.plain password)
      isActive := false
      roles := ["user"]
      refreshToken := none } salt

/-- `UserService.updateUser` on a found user: `Object.assign(user,
updateData)` then `save`. -/
def updateUser (u : User) (d : UpdateData) (salt : Nat) : User :=
  saveExisting u (objectAssign u d) salt

/-! ## Application errors (src/core/common/error-handler.ts) -/

/-- The payload of an `AppError` thrown by `throwError`. -/
structure AppErr where
  message : String
  statusCode : Nat
deriving DecidableEq, Repr

/-- `throwError(message, statusCode)`: throws an `AppError`. -/
def throwAppError (message : String) (statusCode : Nat) : Except AppErr (Option User) :=
  Except.error { message := message, statusCode := statusCode }

/-! ## AuthService (src/services/auth) -/

/-- The body of `AuthService.login`'s try block: look the user up by
email, raise 404 if absent, check the password with bcrypt compare, raise
401 on mismatch, otherwise return the (non-null) user. -/
def loginBody (foundUser : Option User) (password : String) : Except AppErr (Option User) :=
  match foundUser with
  | none => throwAppError "User not found" 404
  | some user =>
    if verifyPassword password (user.password.getD (PwValue.plain "")) then
      Except.ok (some user)
    else
      throwAppError "Invalid password" 401

/-- `AuthService.login`: the try block, with the catch-all re-throw
`throwError("Login failed: " + error.message, HTTP_UNAUTHENTICATED)`. -/
def login (foundUser : Option User) (password : String) : Except AppErr (Option User) :=
  match loginBody foundUser password with
  | Except.ok r => Except.ok r
  | Except.error e =>
      Except.error { message := "Login failed: " ++ e.message, statusCode := 401 }

/-! ## JWT token issuance and verification (src/core/common/jwt.ts)

The `jsonwebtoken` library is an external collaborator working over
opaque encoded strings; its semantics are modelled from the spec:
a token is valid only if its signature matches the server's signing key
and its expiration has not elapsed, with no partial validity, and every
failure (bad signature, malformed structure, expired) yields the same
uniform value. -/

/-- The `JWTPayload` interface (src/types): `roles` and `tenantId` are
optional, so a signed payload may omit them. -/
structure JWTPayload where
  userId : String
  email : String
  roles : Option (List String)
  tenantId : Option String
deriving DecidableEq, Repr

/-- Encoding of an optional string into the signed material. -/
def encOptStr : Option String → String
  | none => "-"
  | some s => "+" ++ s

/-- Encoding of an optional role list into the signed material. -/
def encOptRoles : Option (List String) → String
  | none => "-"
  | some l => "+" ++ String.intercalate "," l

/-- Modelled from the spec: the signing primitive of `jsonwebtoken`
(`jwt.sign`'s HMAC): a digest over the secret, the claims and the
expiration timestamp. -/
def signature (secret : String) (p : JWTPayload) (e : Nat) : String :=
  secret ++ "#" ++ p.userId ++ "#" ++ p.email ++ "#" ++ encOptRoles p.roles
    ++ "#" ++ encOptStr p.tenantId ++ "#" ++ toString e

/-- The server's signing secret (`JWT_SECRET` with its default). -/
def jwtSecret : String := "your-secret-key"

/-- `TOKEN_EXPIRATION = '24h'`, in seconds. -/
def tokenTTL : Nat := 24 * 60 * 60

/-- A structurally well-formed signed token: claims, expiration
timestamp, and the signature carried with them. -/
structure SignedToken where
  payload : JWTPayload
  exp : Nat
  sig : String
deriving DecidableEq, Repr

/-- What arrives on the wire where a token is expected: either a
structurally well-formed signed token or a malformed string. -/
inductive TokenWire where
  | signed (t : SignedToken)
  | malformed (raw : String)
deriving DecidableEq, Repr

/-- `generateToken(payload)`: `jwt.sign(payload, JWT_SECRET,
\x7b expiresIn: TOKEN_EXPIRATION \x7d)` at the current time `now`. -/
def generateToken (payload : JWTPayload) (now : Nat) : TokenWire :=
  TokenWire.signed
    { payload := payload
      exp := now + tokenTTL
      sig := signature jwtSecret payload (now + tokenTTL) }

/-- `verifyToken(token)`: `jwt.verify(token, JWT_SECRET)` inside
`try/catch`, evaluated at time `now`: the decoded payload when the
signature matches the secret and the token is not expired, and the
uniform failure value `none` otherwise. -/
def verifyToken (t : TokenWire) (now : Nat) : Option JWTPayload :=
  match t with
  | TokenWire.malformed _ => none
  | TokenWire.signed tok =>
    if tok.sig = signature jwtSecret tok.payload tok.exp ∧ now < tok.exp then
      some tok.payload
    else
      none

/-! ## Session resolution (src/core/common/jwt.ts, hasValidSession) -/

/-- JS `header.startsWith(s)`. -/
def jsStartsWith (s p : String) : Bool :=
  p.toList.isPrefixOf s.toList

/-- JS `s.split(' ')` with a single-space separator: splits at every
space character, keeping empty segments. -/
def splitSpaceAux : List Char → List Char → List String
  | [], acc => [String.mk acc.reverse]
  | c :: cs, acc =>
    if c = ' ' then String.mk acc.reverse :: splitSpaceAux cs []
    else splitSpaceAux cs (c :: acc)

/-- JS `s.split(' ')`. -/
def jsSplitSpace (s : String) : List String :=
  splitSpaceAux s.toList []

/-- `hasValidSession(authHeader)`: returns null unless the header is
present and starts with the bearer scheme, takes `split(' ')[1]` as the
token, returns null if that is missing or empty, and otherwise delegates
to the token verifier.  The verifier over encoded strings is the external
`verifyToken`; it is passed as the parameter `verify`. -/
def hasValidSession (verify : String → Option JWTPayload)
    (authHeader : Option String) : Option JWTPayload :=
  match authHeader with
  | none => none
  | some h =>
    if jsStartsWith h "Bearer " = false then none
    else
      match (jsSplitSpace h).get? 1 with
      | none => none
      | some token => if token = "" then none else verify token

/-! ## Authorization guards (src/core/common/authorization.ts) -/

/-- The observable outcome of running one middleware: it called `next()`,
it responded with a status code and message without calling `next`, it
called `next(err)`, or it threw a runtime `TypeError`. -/
inductive GuardOutcome where
  | next : GuardOutcome
  | respond (status : Nat) (message : String) : GuardOutcome
  | nextErr (message : String) : GuardOutcome
  | throwTypeError : GuardOutcome
deriving DecidableEq, Repr

/-- The request as the guards see it: the session principal attached by
the `authenticated` middleware (if any), and the tenant identifier
carried by the routing parameters and/or the body (if any). -/
structure Req where
  sessionUser : Option JWTPayload
  paramsTenantId : Option String
  bodyTenantId : Option String
deriving DecidableEq, Repr

/-- `hasRole(roles)`: 401 when no session user is attached; otherwise
`user.roles.some(role => roles.includes(role))` — which throws a
`TypeError` when `user.roles` is absent — then `next()` on a role match
and 403 otherwise. -/
def hasRole (roles : List String) (req : Req) : GuardOutcome :=
  match req.sessionUser with
  | none => GuardOutcome.respond 401 "Unauthorized - User not authenticated"
  | some user =>
    match user.roles with
    | none => GuardOutcome.throwTypeError
    | some userRoles =>
      if userRoles.any (fun role => roles.contains role) then
        GuardOutcome.next
      else
        GuardOutcome.respond 403 "Forbidden - Insufficient permissions"

/-- JS truthiness-based `a || b` on strings: `undefined` and `""` are
falsy. -/
def jsStringOr (a b : Option String) : Option String :=
  match a with
  | none => b
  | some s => if s = "" then b else some s

/-- `req.params.tenantId || req.body.tenantId`. -/
def requestedTenantId (req : Req) : Option String :=
  jsStringOr req.paramsTenantId req.bodyTenantId

/-- JS truthiness of an optional string. -/
def strTruthy : Option String → Bool
  | none => false
  | some s => decide (s ≠ "")

/-- `belongsToTenant()`: 401 when no session user is attached; 403 when
`!user.tenantId || user.tenantId !== requestedTenantId`; `next()`
otherwise. -/
def belongsToTenant (req : Req) : GuardOutcome :=
  match req.sessionUser with
  | none => GuardOutcome.respond 401 "Unauthorized - User not authenticated"
  | some user =>
    if strTruthy user.tenantId = false ∨ user.tenantId ≠ requestedTenantId req then
      GuardOutcome.respond 403 "Forbidden - Invalid tenant access"
    else
      GuardOutcome.next

/-- `authorizeMultiple(...middlewares)`: `executeMiddleware(0)` — run the
middlewares in order; a middleware that calls `next()` hands control to
the following one; when the list is exhausted the outer `next()` runs
(the protected handler); any middleware that responds, errors or throws
ends the chain with that outcome. -/
def authorizeMultiple : List (Req → GuardOutcome) → Req → GuardOutcome
  | [], _ => GuardOutcome.next
  | m :: rest, req =>
    match m req with
    | GuardOutcome.next => authorizeMultiple rest req
    | out => out

/-- `authorizeMultiple` instrumented with the number of middlewares
actually invoked, mirroring `executeMiddleware`'s recursion exactly. -/
def runChain : List (Req → GuardOutcome) → Req → GuardOutcome × Nat
  | [], _ => (GuardOutcome.next, 0)
  | m :: rest, req =>
    match m req with
    | GuardOutcome.next =>
      ((runChain rest req).1, (runChain rest req).2 + 1)
    | out => (out, 1)

/-! ## The authenticated middleware (src/core/common/authentication.ts) -/

/-- `authenticated`: resolve the session from the `Authorization` header;
respond 401 when it yields null, otherwise attach the payload as
`req.session.user` and call `next()`. -/
def authenticated (verify : String → Option JWTPayload)
    (authHeader : Option String) (req : Req) : GuardOutcome × Req :=
  match hasValidSession verify authHeader with
  | none =>
    (GuardOutcome.respond 401 "Authentication required. Please login to continue.", req)
  | some payload =>
    (GuardOutcome.next, { req with sessionUser := some payload })

/-- The claim set `UserService.authenticateUser` signs:
`generateToken(\x7b userId: user.id, email: user.email \x7d)` — the
optional `roles` and `tenantId` fields are not supplied. -/
def authenticateUserPayload (u : User) : JWTPayload :=
  { userId := u.id, email := u.email, roles := none, tenantId := none }

/-- `UserService.authenticateUser`: find the user by email (404 when
absent), validate the password (401 on mismatch), and return the user's
id/email together with a token over `authenticateUserPayload`. -/
def authenticateUser (foundUser : Option User) (password : String)
    (now : Nat) : Except AppErr (String × String × TokenWire) :=
  match foundUser with
  | none => Except.error { message := "User not found", statusCode := 404 }
  | some user =>
    if validatePassword user password then
      Except.ok (user.id, user.email, generateToken (authenticateUserPayload user) now)
    else
      Except.error { message := "Invalid password", statusCode := 401 }

/-- `AuthService.changePassword` after the user is found: verify the
current password (inner 401 on mismatch, re-thrown by the catch block as
400 `Password change failed: ...`), hash the new password manually with
`hashPassword`, then call `UserService.updateUser` with the hashed string
as the `password` field.  `salt1` salts the manual hash, `salt2` the salt
the entity hook would draw on save. -/
def changePassword (u : User) (currentPassword newPassword : String)
    (salt1 salt2 : Nat) : Except AppErr User :=
  if verifyPassword currentPassword (u.password.getD (PwValue.plain "")) then
    Except.ok (updateUser u
      { email := none
        password := some (hashPassword (PwValue.plain newPassword) salt1) } salt2)
  else
    Except.error
      { message := "Password change failed: Current password is incorrect"
        statusCode := 400 }

/-! ## Helper definitions and lemmas -/

deriving instance DecidableEq for Except

/-- A user row as it sits in the store after a signup with password
`oldSecret`: the password column holds the bcrypt digest of that
plaintext. -/
def storedUser : User :=
  { id := "u1"
    email := "a@b.com"
    firstName := "Ada"
    lastName := "B"
    password := some (PwValue.hashed (PwValue.plain "oldSecret") 0)
    isActive := true
    roles := ["user"]
    refreshToken := none }

lemma strTruthy_iff (o : Option String) :
    strTruthy o = true ↔ ∃ t, o = some t ∧ t ≠ "" := by
  cases o <;> simp [strTruthy]

lemma verifyToken_generateToken (payload : JWTPayload) (issuedAt now : Nat)
    (h : now < issuedAt + tokenTTL) :
    verifyToken (generateToken payload issuedAt) now = some payload := by
  simp [verifyToken, generateToken, h]

/-! ## Claim theorems -/

/-- Claim C1: the claim states that every create or update mutation that
sets the password field stores `hash(plaintext)` applied exactly once.
The code violates it: `AuthService.changePassword` hashes the new
password manually and then `UserService.updateUser`'s save triggers the
entity `hashPassword` hook again, so the stored value is the digest of a
digest, and the new password no longer validates. -/
theorem changePassword_double_hashes :
    changePassword storedUser "oldSecret" "newSecret123" 1 2 =
      Except.ok { storedUser with
        password := some (PwValue.hashed
          (PwValue.hashed (PwValue.plain "newSecret123") 1) 2) } ∧
    validatePassword { storedUser with
        password := some (PwValue.hashed
          (PwValue.hashed (PwValue.plain "newSecret123") 1) 2) } "newSecret123" = false ∧
    ∀ salt : Nat,
      some (PwValue.hashed (PwValue.hashed (PwValue.plain "newSecret123") 1) 2) ≠
        some (hashPassword (PwValue.plain "newSecret123") salt) := by
  refine ⟨by decide, by decide, ?_⟩
  intro salt heq
  simp [hashPassword] at heq

/-- Claim C2: the claim states that an update not touching the password
field leaves the stored hash unchanged.  The code violates it: on an
email-only `UserService.updateUser`, the `@BeforeUpdate` hook sees a
truthy `password` and rehashes the already-stored digest, after which the
original password no longer validates. -/
theorem updateUser_email_only_rehashes :
    (updateUser storedUser { email := some "new@b.com", password := none } 5).password =
      some (PwValue.hashed (PwValue.hashed (PwValue.plain "oldSecret") 0) 5) ∧
    (updateUser storedUser { email := some "new@b.com", password := none } 5).password ≠
      storedUser.password ∧
    validatePassword
      (updateUser storedUser { email := some "new@b.com", password := none } 5)
      "oldSecret" = false := by
  refine ⟨by decide, by decide, by decide⟩

/-- Claim C3: with a principal attached, the tenant guard passes iff the
principal's `tenantId` is non-empty and equal to the requested tenant
identifier; otherwise it rejects as forbidden; the requested identifier
is the route parameter whenever the parameter carries a (non-empty)
value; and a principal with an absent `tenantId` is rejected as forbidden
for every requested tenant. -/
theorem belongsToTenant_spec (req : Req) (u : JWTPayload)
    (h : req.sessionUser = some u) :
    (belongsToTenant req = GuardOutcome.next ↔
      ∃ t, u.tenantId = some t ∧ t ≠ "" ∧ requestedTenantId req = some t) ∧
    (belongsToTenant req = GuardOutcome.next ∨
      belongsToTenant req = GuardOutcome.respond 403 "Forbidden - Invalid tenant access") ∧
    (u.tenantId = none →
      belongsToTenant req = GuardOutcome.respond 403 "Forbidden - Invalid tenant access") ∧
    (∀ p, req.paramsTenantId = some p → p ≠ "" → requestedTenantId req = some p) := by
  have hb : belongsToTenant req =
      (if strTruthy u.tenantId = false ∨ u.tenantId ≠ requestedTenantId req then
        GuardOutcome.respond 403 "Forbidden - Invalid tenant access"
      else GuardOutcome.next) := by
    simp only [belongsToTenant, h]
  refine ⟨?_, ?_, ?_, ?_⟩
  · rw [hb]
    by_cases hc : strTruthy u.tenantId = false ∨ u.tenantId ≠ requestedTenantId req
    · rw [if_pos hc]
      simp only [iff_iff_implies_and_implies]
      constructor
      · intro habs
        exact absurd habs (by simp)
      · rintro ⟨t, ht, htne, hr⟩
        rcases hc with h1 | h2
        · rw [ht] at h1
          simp [strTruthy, htne] at h1
        · rw [ht, hr] at h2
          exact absurd rfl h2
    · push_neg at hc
      rw [if_neg (not_or.mpr ⟨hc.1, not_not.mpr hc.2⟩)]
      have h1 : strTruthy u.tenantId = true := by
        cases hfv : strTruthy u.tenantId
        · exact absurd hfv hc.1
        · rfl
      obtain ⟨t, ht, htne⟩ := (strTruthy_iff u.tenantId).mp h1
      exact iff_of_true rfl ⟨t, ht, htne, by rw [← hc.2, ht]⟩
  · rw [hb]
    by_cases hc : strTruthy u.tenantId = false ∨ u.tenantId ≠ requestedTenantId req
    · exact Or.inr (if_pos hc)
    · exact Or.inl (if_neg hc)
  · intro hnone
    rw [hb, if_pos (Or.inl (by simp [hnone, strTruthy]))]
  · intro p hp hpne
    simp [requestedTenantId, jsStringOr, hp, hpne]

/-- Claim C4: with a principal carrying a roles list attached, the role
guard passes iff the roles intersect the allowed list and rejects with
the 403 forbidden outcome otherwise; with no principal attached it
rejects with the 401 unauthenticated outcome, which is a distinct
observable outcome. -/
theorem hasRole_spec (allowed : List String) (req : Req) (u : JWTPayload)
    (rs : List String) (h : req.sessionUser = some u) (hr : u.roles = some rs) :
    (hasRole allowed req = GuardOutcome.next ↔ ∃ r ∈ rs, r ∈ allowed) ∧
    ((¬ ∃ r ∈ rs, r ∈ allowed) →
      hasRole allowed req = GuardOutcome.respond 403 "Forbidden - Insufficient permissions") ∧
    (∀ req2 : Req, req2.sessionUser = none →
      hasRole allowed req2 = GuardOutcome.respond 401 "Unauthorized - User not authenticated") ∧
    GuardOutcome.respond 401 "Unauthorized - User not authenticated" ≠
      GuardOutcome.respond 403 "Forbidden - Insufficient permissions" := by
  have hb : hasRole allowed req =
      (if rs.any (fun role => allowed.contains role) then GuardOutcome.next
      else GuardOutcome.respond 403 "Forbidden - Insufficient permissions") := by
    simp only [hasRole, h, hr]
  have hany : (rs.any (fun role => allowed.contains role) = true) ↔
      ∃ r ∈ rs, r ∈ allowed := by
    simp [List.any_eq_true]
  refine ⟨?_, ?_, ?_, by simp⟩
  · rw [hb]
    by_cases hc : rs.any (fun role => allowed.contains role) = true
    · rw [if_pos hc]
      exact iff_of_true rfl (hany.mp hc)
    · rw [if_neg hc]
      refine iff_of_false (by simp) (fun habs => hc (hany.mpr habs))
  · intro hno
    rw [hb, if_neg (fun hc => hno (hany.mp hc))]
  · intro req2 h2
    simp only [hasRole, h2]

/-- Claim C5: guard composition evaluates the guards in order and
short-circuits at the first rejection: the protected handler runs (the
outer `next()` fires) iff every guard passes, and when the guards before
some rejecting guard all pass, the chain's outcome is that guard's
rejection and exactly the guards up to and including it are invoked — no
later guard is ever evaluated. -/
theorem authorizeMultiple_short_circuit :
    (∀ (req : Req) (ms : List (Req → GuardOutcome)),
      (authorizeMultiple ms req = GuardOutcome.next ↔
        ∀ g ∈ ms, g req = GuardOutcome.next)) ∧
    (∀ (req : Req) (gs : List (Req → GuardOutcome)) (m : Req → GuardOutcome)
      (rest : List (Req → GuardOutcome)),
      (∀ g ∈ gs, g req = GuardOutcome.next) → m req ≠ GuardOutcome.next →
        authorizeMultiple (gs ++ m :: rest) req = m req ∧
        (runChain (gs ++ m :: rest) req).2 = gs.length + 1) := by
  constructor
  · intro req ms
    induction ms with
    | nil => simp [authorizeMultiple]
    | cons m rest ih =>
      cases hm : m req with
      | next => simpa [authorizeMultiple, hm] using ih
      | respond s msg => simp [authorizeMultiple, hm]
      | nextErr e => simp [authorizeMultiple, hm]
      | throwTypeError => simp [authorizeMultiple, hm]
  · intro req gs m rest hpass hrej
    induction gs with
    | nil =>
      cases hm : m req with
      | next => exact absurd hm hrej
      | respond s msg => simp [authorizeMultiple, runChain, hm]
      | nextErr e => simp [authorizeMultiple, runChain, hm]
      | throwTypeError => simp [authorizeMultiple, runChain, hm]
    | cons g gs ih =>
      have hg : g req = GuardOutcome.next := hpass g (by simp)
      have ih2 := ih (fun g hgm => hpass g (by simp [hgm]))
      refine ⟨?_, ?_⟩
      · simpa [authorizeMultiple, hg] using ih2.1
      · simp only [List.cons_append, runChain, hg, List.length_cons, List.append_eq]
        rw [ih2.2]

/-- Claim C6: the session resolver returns null (throws nothing) for an
absent header, an empty header, any header not starting with the bearer
scheme, and the header whose token part after the scheme is empty,
whatever the underlying token verifier does. -/
theorem hasValidSession_null_on_bad_header :
    (∀ verify, hasValidSession verify none = none) ∧
    (∀ verify, hasValidSession verify (some "") = none) ∧
    (∀ verify h, jsStartsWith h "Bearer " = false →
      hasValidSession verify (some h) = none) ∧
    (∀ verify, hasValidSession verify (some "Bearer ") = none) := by
  refine ⟨fun verify => rfl, ?_, ?_, ?_⟩
  · intro verify
    simp [hasValidSession, show jsStartsWith "" "Bearer " = false from by decide]
  · intro verify h hne
    simp [hasValidSession, hne]
  · intro verify
    have h1 : (jsSplitSpace "Bearer ")[1]? = some "" := by decide
    simp [hasValidSession,
      show jsStartsWith "Bearer " "Bearer " = true from by decide, h1]

/-- Claim C7: verifying a token issued from a claim set, before its
expiration, succeeds and returns exactly the issued claim fields. -/
theorem verifyToken_generateToken_roundtrip (payload : JWTPayload)
    (issuedAt now : Nat) (h : now < issuedAt + tokenTTL) :
    verifyToken (generateToken payload issuedAt) now = some payload ∧
    ∃ q, verifyToken (generateToken payload issuedAt) now = some q ∧
      q.userId = payload.userId ∧ q.email = payload.email ∧
      q.roles = payload.roles ∧ q.tenantId = payload.tenantId := by
  have hv := verifyToken_generateToken payload issuedAt now h
  exact ⟨hv, payload, hv, rfl, rfl, rfl, rfl⟩

/-- Claim C8: every invalid token — malformed, carrying a signature that
does not match the secret over its claims and expiration, or past its
expiration timestamp regardless of its signature — makes `verifyToken`
return one and the same uniform failure value, `none`. -/
theorem verifyToken_uniform_failure :
    (∀ raw now, verifyToken (TokenWire.malformed raw) now = none) ∧
    (∀ (tok : SignedToken) (now : Nat),
      tok.sig ≠ signature jwtSecret tok.payload tok.exp →
      verifyToken (TokenWire.signed tok) now = none) ∧
    (∀ (tok : SignedToken) (now : Nat), tok.exp ≤ now →
      verifyToken (TokenWire.signed tok) now = none) := by
  refine ⟨fun raw now => rfl, ?_, ?_⟩
  · intro tok now hsig
    simp [verifyToken, hsig]
  · intro tok now hexp
    simp [verifyToken, Nat.not_lt.mpr hexp]

/-- Claim C9: the token `UserService.authenticateUser` issues signs only
the user id and email, so its claims carry no roles list; such a payload
survives verification with `roles` still absent, and every role guard
evaluated against a principal with an absent roles list throws a
`TypeError` (from `user.roles.some`) instead of returning the 401 or 403
rejection. -/
theorem authenticateUser_roles_absent_typeError :
    (∀ u : User, (authenticateUserPayload u).roles = none) ∧
    (∀ (u : User) (now t : Nat), t < now + tokenTTL →
      verifyToken (generateToken (authenticateUserPayload u) now) t =
        some (authenticateUserPayload u)) ∧
    (∀ (allowed : List String) (req : Req) (p : JWTPayload),
      req.sessionUser = some p → p.roles = none →
      hasRole allowed req = GuardOutcome.throwTypeError) := by
  refine ⟨fun u => rfl, ?_, ?_⟩
  · intro u now t ht
    exact verifyToken_generateToken (authenticateUserPayload u) now t ht
  · intro allowed req p hp hroles
    simp only [hasRole, hp, hroles]

/-- Claim C10: `AuthService.login` never resolves to a null user — every
failure path throws — and its catch-all rethrow assigns status 401
uniformly, so an unknown email (internally a 404) surfaces with the same
401 status as a wrong password. -/
theorem login_never_null_uniform_401 :
    (∀ foundUser password, login foundUser password ≠ Except.ok none) ∧
    (∀ foundUser password e, login foundUser password = Except.error e →
      e.statusCode = 401) ∧
    (∀ password, login none password =
      Except.error { message := "Login failed: User not found", statusCode := 401 }) ∧
    (∀ (u : User) password,
      verifyPassword password (u.password.getD (PwValue.plain "")) = false →
      login (some u) password =
        Except.error { message := "Login failed: Invalid password", statusCode := 401 }) := by
  refine ⟨?_, ?_, fun password => rfl, ?_⟩
  · intro foundUser password habs
    cases foundUser with
    | none => simp [login, loginBody, throwAppError] at habs
    | some u =>
      by_cases hv : verifyPassword password (u.password.getD (PwValue.plain "")) = true
      · simp [login, loginBody, hv] at habs
      · simp [login, loginBody, hv, throwAppError] at habs
  · intro foundUser password e he
    cases foundUser with
    | none =>
      simp only [login, loginBody, throwAppError, Except.error.injEq] at he
      rw [← he]
    | some u =>
      by_cases hv : verifyPassword password (u.password.getD (PwValue.plain "")) = true
      · simp [login, loginBody, hv] at he
      · simp only [login, loginBody, hv, throwAppError, Bool.false_eq_true,
          if_false, Except.error.injEq] at he
        rw [← he]
  · intro u password hv
    simp [login, loginBody, hv, throwAppError]

/-! ## Concrete instances for the witnesses -/

/-- A principal scoped to tenant `t1`. -/
def principalT1 : JWTPayload :=
  { userId := "u1", email := "a@b.com", roles := none, tenantId := some "t1" }

/-- A principal with no tenant scope. -/
def principalNoTenant : JWTPayload :=
  { userId := "u2", email := "b@b.com", roles := none, tenantId := none }

/-- A request from `principalT1` for tenant `t2`. -/
def reqTenantMismatch : Req :=
  { sessionUser := some principalT1, paramsTenantId := some "t2", bodyTenantId := none }

/-- A request from `principalNoTenant` for tenant `t1`. -/
def reqTenantAbsent : Req :=
  { sessionUser := some principalNoTenant, paramsTenantId := some "t1", bodyTenantId := none }

/-- A principal carrying exactly the `manager` role. -/
def principalManager : JWTPayload :=
  { userId := "u3", email := "m@b.com", roles := some ["manager"], tenantId := none }

/-- A request from `principalManager`. -/
def reqManager : Req :=
  { sessionUser := some principalManager, paramsTenantId := none, bodyTenantId := none }

/-- A concrete claim set with all optional fields present. -/
def demoPayload : JWTPayload :=
  { userId := "u1", email := "a@b.com", roles := some ["user"], tenantId := some "t1" }

/-- Witness for claim C3, at the two inputs of the spec: a principal with
`tenantId = "t1"` asking for tenant `"t2"` is rejected as forbidden, and
a principal with an absent `tenantId` asking for `"t1"` is rejected as
forbidden. -/
theorem belongsToTenant_spec_witness :
    belongsToTenant reqTenantMismatch =
      GuardOutcome.respond 403 "Forbidden - Invalid tenant access" ∧
    belongsToTenant reqTenantAbsent =
      GuardOutcome.respond 403 "Forbidden - Invalid tenant access" := by
  constructor
  · have h := belongsToTenant_spec reqTenantMismatch principalT1 rfl
    rcases h.2.1 with hp | hr
    · exfalso
      obtain ⟨t, ht, htne, hreq⟩ := h.1.mp hp
      rw [show requestedTenantId reqTenantMismatch = some "t2" from by decide] at hreq
      rw [show principalT1.tenantId = some "t1" from rfl] at ht
      simp only [Option.some.injEq] at ht hreq
      subst ht
      exact absurd hreq (by decide)
    · exact hr
  · exact (belongsToTenant_spec reqTenantAbsent principalNoTenant rfl).2.2.1 rfl

/-- Witness for claim C4, at the inputs of the spec: a principal with
roles `["manager"]` passes `hasRole(["admin", "manager"])` and fails
`hasRole(["admin"])` with the forbidden outcome. -/
theorem hasRole_spec_witness :
    hasRole ["admin", "manager"] reqManager = GuardOutcome.next ∧
    hasRole ["admin"] reqManager =
      GuardOutcome.respond 403 "Forbidden - Insufficient permissions" := by
  constructor
  · exact (hasRole_spec ["admin", "manager"] reqManager principalManager
      ["manager"] rfl rfl).1.mpr ⟨"manager", by decide, by decide⟩
  · exact (hasRole_spec ["admin"] reqManager principalManager
      ["manager"] rfl rfl).2.1 (by decide)

/-- Witness for claim C7: a token issued at time 0 over a concrete claim
set verifies at time 100 (inside the 24h window) to exactly those
claims. -/
theorem verifyToken_generateToken_roundtrip_witness :
    verifyToken (generateToken demoPayload 0) 100 = some demoPayload :=
  (verifyToken_generateToken_roundtrip demoPayload 0 100 (by decide)).1

end SES
